import Mathlib

/-!
Shallow embedding of the authentication core of Dipoweb3/Advance-Backend
(src/middleware/auth.ts, src/middleware/authMiddleware.ts, src/models/User.ts),
with the external collaborators (Redis revocation store, Sequelize user
directory, jsonwebtoken, ethers, bcrypt) modelled as explicit state and
abstract function parameters.
-/

namespace AdvanceBackend

/-- User roles (src/types, used as UserRole.WEB3_USER in the middleware;
the spec lists standard user, wallet user, admin). -/
inductive UserRole
  | USER
  | ADMIN
  | WEB3_USER
deriving DecidableEq, Repr

/-- The signed claims carried by a bearer token (TokenPayload in src/types,
as used by the middleware: userId, role, walletAddress?). -/
structure TokenPayload where
  userId : String
  role : UserRole
  walletAddress : Option String
deriving DecidableEq, Repr

/-- A signed structured token. `raw` is its serialized text (the blacklist in
auth.ts is keyed by the raw token string, `bl_${token}`); `tokenId` is the
unique token identifier the spec's RevocationStore is keyed by; `signedWith`
records the secret the token was signed with; `exp` its expiry instant. -/
structure Token where
  raw : String
  tokenId : String
  payload : TokenPayload
  signedWith : String
  exp : Nat
deriving DecidableEq, Repr

inductive JwtErr
  | invalidSignature
  | expired
deriving DecidableEq, Repr

/-- jwt.verify(token, secret): signature check, then expiry check. -/
def jwtVerify (t : Token) (secret : String) (now : Nat) : Except JwtErr TokenPayload :=
  if t.signedWith ≠ secret then .error .invalidSignature
  else if t.exp < now then .error .expired
  else .ok t.payload

/-- Persisted user record (User model, src/models/User.ts). -/
structure UserRec where
  id : String
  email : String
  password : String
  role : UserRole
  walletAddress : Option String
  isActive : Bool
  isWalletVerified : Bool
deriving DecidableEq, Repr

/-- User.findByPk(id). -/
def findByPk (users : List UserRec) (id : String) : Option UserRec :=
  users.find? (fun u => u.id == id)

/-- User.findOne(\x7b where: \x7b walletAddress \x7d \x7d). -/
def findByWallet (users : List UserRec) (addr : String) : Option UserRec :=
  users.find? (fun u => u.walletAddress == some addr)

/-- An HTTP-level failure: status code plus message (ApiError / res.status). -/
structure ApiErr where
  status : Nat
  msg : String
deriving DecidableEq, Repr

/-- Outcome of a middleware invocation: success with a value, or an error
handed to the error boundary / written to the response. -/
inductive Outcome (α : Type)
  | ok (a : α)
  | err (e : ApiErr)
deriving DecidableEq, Repr

/-- src/middleware/auth.ts line 10:
`const JWT_SECRET = process.env.JWT_SECRET || 'your-secret-key'`.
JS `||` also replaces the empty string (falsy). -/
def JWT_SECRET (envSecret : Option String) : String :=
  match envSecret with
  | none => "your-secret-key"
  | some s => if s = "" then "your-secret-key" else s

/-- External-store reads performed by authenticateToken, in order. -/
inductive StoreQuery
  | revocationLookup
  | signatureCheck
  | userLookup
deriving DecidableEq, Repr

/-- Ambient state seen by the token validators: the process environment's
JWT_SECRET, the Redis blacklist (raw token strings marked `bl_`), the user
directory, and the current time. -/
structure Env where
  envSecret : Option String
  blacklist : List String
  users : List UserRec
  now : Nat

/-- authenticateToken (src/middleware/auth.ts lines 18-58), instrumented with
the ordered list of checks it performed: missing-token 401; blacklist lookup
(before any signature verification); jwt.verify with the defaulted secret
(any JsonWebTokenError, expiry included, maps to 401 Invalid token);
User.findByPk; isActive check; on success req.user is set to the DECODED
TOKEN PAYLOAD, not the directory record. -/
def authenticateTokenT (env : Env) (token : Option Token) :
    Outcome TokenPayload × List StoreQuery :=
  match token with
  | none => (.err ⟨401, "No token provided"⟩, [])
  | some t =>
    if env.blacklist.contains t.raw then
      (.err ⟨401, "Token has been revoked"⟩, [.revocationLookup])
    else
      match jwtVerify t (JWT_SECRET env.envSecret) env.now with
      | .error _ => (.err ⟨401, "Invalid token"⟩, [.revocationLookup, .signatureCheck])
      | .ok decoded =>
        match findByPk env.users decoded.userId with
        | none =>
          (.err ⟨401, "User not found"⟩, [.revocationLookup, .signatureCheck, .userLookup])
        | some user =>
          if !user.isActive then
            (.err ⟨401, "User account is inactive"⟩,
              [.revocationLookup, .signatureCheck, .userLookup])
          else
            (.ok decoded, [.revocationLookup, .signatureCheck, .userLookup])

/-- authenticateToken's outcome (the instrumented trace projected away). -/
def authenticateToken (env : Env) (token : Option Token) : Outcome TokenPayload :=
  (authenticateTokenT env token).1

/-- authenticate (src/middleware/authMiddleware.ts lines 9-46): no blacklist
lookup; jwt.verify with `process.env.JWT_SECRET!` (absent secret makes
jwt.verify throw a JsonWebTokenError, mapped to 401 Invalid token); inactive
account answers 403; on success req.user is rebuilt from the DIRECTORY record. -/
def authenticate (env : Env) (token : Option Token) : Outcome TokenPayload :=
  match token with
  | none => .err ⟨401, "No token provided"⟩
  | some t =>
    match env.envSecret with
    | none => .err ⟨401, "Invalid token"⟩
    | some secret =>
      match jwtVerify t secret env.now with
      | .error _ => .err ⟨401, "Invalid token"⟩
      | .ok decoded =>
        match findByPk env.users decoded.userId with
        | none => .err ⟨401, "User not found"⟩
        | some user =>
          if !user.isActive then .err ⟨403, "Account is deactivated"⟩
          else .ok { userId := user.id, role := user.role, walletAddress := user.walletAddress }

/-- JS truthiness of req.user.walletAddress: undefined and the empty string
are falsy. -/
def walletPresent : Option String → Bool
  | none => false
  | some s => !(s == "")

/-- requireRole(roles) (src/middleware/auth.ts lines 61-68). -/
def requireRoleStep (roles : List UserRole) (user : TokenPayload) : Outcome Unit :=
  if !(roles.contains user.role) then .err ⟨403, "Insufficient permissions"⟩ else .ok ()

/-- Second element of requireWeb3Auth (src/middleware/auth.ts lines 173-178). -/
def requireWeb3AuthStep (user : TokenPayload) : Outcome Unit :=
  if !(walletPresent user.walletAddress) then .err ⟨401, "Web3 authentication required"⟩
  else .ok ()

/-- Second element of requireWallet (src/middleware/auth.ts lines 184-189). -/
def requireWalletStep (user : TokenPayload) : Outcome Unit :=
  if !(walletPresent user.walletAddress) then .err ⟨401, "Wallet authentication required"⟩
  else .ok ()

/-- Second element of requireVerifiedWallet (src/middleware/auth.ts lines
195-206): wallet presence, then a FRESH directory lookup of isWalletVerified. -/
def requireVerifiedWalletStep (users : List UserRec) (user : TokenPayload) : Outcome Unit :=
  if !(walletPresent user.walletAddress) then .err ⟨401, "Wallet authentication required"⟩
  else
    match user.walletAddress with
    | none => .err ⟨403, "Wallet not verified"⟩
    | some addr =>
      match findByWallet users addr with
      | none => .err ⟨403, "Wallet not verified"⟩
      | some u => if !u.isWalletVerified then .err ⟨403, "Wallet not verified"⟩ else .ok ()

/-- Sequencing of a middleware array: the second handler runs only when the
first called next() with req.user set. -/
def andThen (a : Outcome TokenPayload) (step : TokenPayload → Outcome Unit) :
    Outcome TokenPayload :=
  match a with
  | .err e => .err e
  | .ok u =>
    match step u with
    | .err e => .err e
    | .ok _ => .ok u

/-- [authenticateToken, requireRole(roles)] as a chain. -/
def requireRoleChain (roles : List UserRole) (env : Env) (token : Option Token) :
    Outcome TokenPayload :=
  andThen (authenticateToken env token) (requireRoleStep roles)

/-- requireWeb3Auth (src/middleware/auth.ts lines 171-179). -/
def requireWeb3Auth (env : Env) (token : Option Token) : Outcome TokenPayload :=
  andThen (authenticateToken env token) requireWeb3AuthStep

/-- requireWallet (src/middleware/auth.ts lines 182-190). -/
def requireWallet (env : Env) (token : Option Token) : Outcome TokenPayload :=
  andThen (authenticateToken env token) requireWalletStep

/-- requireVerifiedWallet (src/middleware/auth.ts lines 193-207). -/
def requireVerifiedWallet (env : Env) (token : Option Token) : Outcome TokenPayload :=
  andThen (authenticateToken env token) (requireVerifiedWalletStep env.users)

/-- JS String.prototype.toLowerCase as used on 0x-hex wallet addresses. -/
def jsToLower (s : String) : String :=
  String.mk (s.data.map Char.toLower)

/-- JS s.slice(0, n). -/
def jsSliceTake (s : String) (n : Nat) : String :=
  String.mk (s.data.take n)

/-- JS s.slice(-n): the last n characters (the whole string when shorter). -/
def jsSliceLast (s : String) (n : Nat) : String :=
  String.mk (s.data.drop (s.data.length - n))

/-- Splitting a character list at a separator, the list-level meaning of the
dot/at splitting the isEmail validator performs: n separators yield n+1
(possibly empty) segments. -/
def splitChar (sep : Char) : List Char → List (List Char)
  | [] => [[]]
  | c :: cs =>
    if c == sep then [] :: splitChar sep cs
    else
      match splitChar sep cs with
      | [] => [[c]]
      | seg :: rest => (c :: seg) :: rest

/-- Two consecutive dots somewhere in the character list. -/
def hasDoubleDot : List Char → Bool
  | c1 :: c2 :: rest => (c1 == '.' && c2 == '.') || hasDoubleDot (c2 :: rest)
  | _ => false

/-- Every dot-separated segment of the list is nonempty: it neither starts
nor ends with a dot and contains no two consecutive dots. -/
def dotSegmentsNonempty (cs : List Char) : Bool :=
  !(cs.head? == some '.') && !(cs.getLast? == some '.') && !(hasDoubleDot cs)

/-- Sequelize's isEmail validator on the email attribute (User.init,
src/models/User.ts lines 45-47), modelled at the granularity these emails
exercise: exactly one at-sign; the local part and the domain are nonempty
and, split on dots, contain no empty segment (validator.js rejects
consecutive, leading or trailing dots). -/
def isEmailShaped (s : String) : Bool :=
  match splitChar '@' s.data with
  | [lp, dp] =>
    !(lp.isEmpty) && !(dp.isEmpty) && dotSegmentsNonempty lp && dotSegmentsNonempty dp
  | _ => false

/-- A hexadecimal digit as accepted by the walletAddress format regex. -/
def isHexDigitChar (c : Char) : Bool :=
  ('0' ≤ c && c ≤ '9') || ('a' ≤ c && c ≤ 'f') || ('A' ≤ c && c ≤ 'F')

/-- The walletAddress format validator (User.init validate, src/models/User.ts
lines 62-64: the value must be 0x followed by exactly 40 hex digits); null
values skip validation (allowNull true). -/
def isWalletShaped : Option String → Bool
  | none => true
  | some a =>
    match a.data with
    | '0' :: 'x' :: rest => rest.length == 40 && rest.all isHexDigitChar
    | _ => false

inductive CreateErr
  | validationFailed
  | uniqueViolation
deriving DecidableEq, Repr

/-- The message of the 500 the handlers map a failed User.create to (the
generic `error instanceof Error` arm forwards error.message). -/
def createErrMsg : CreateErr → String
  | .validationFailed => "Validation error"
  | .uniqueViolation => "unique violation"

def hasEmail (users : List UserRec) (e : String) : Bool :=
  users.any (fun u => u.email == e)

def hasWallet (users : List UserRec) (a : Option String) : Bool :=
  match a with
  | none => false
  | some addr => users.any (fun u => u.walletAddress == some addr)

/-- User.create (src/models/User.ts init options): Sequelize first runs the
declared field validators — isEmail on email, the 0x-hex format on
walletAddress — and a failure throws a ValidationError before any insert;
the insert then enforces the unique constraints on email and walletAddress,
and a conflicting row makes it throw. -/
def userCreate (users : List UserRec) (u : UserRec) : Except CreateErr (List UserRec) :=
  if !(isEmailShaped u.email && isWalletShaped u.walletAddress) then
    .error .validationFailed
  else if hasEmail users u.email || hasWallet users u.walletAddress then
    .error .uniqueViolation
  else .ok (users ++ [u])

/-- The CreateUserAttributes record built by authenticateWallet
(src/middleware/auth.ts lines 88-96): full address in the email, random hex
password, role WEB3_USER, isActive true, isWalletVerified true.
`randomHex` stands for ethers.hexlify(ethers.randomBytes(32)) and `freshId`
for the directory-generated UUID primary key. -/
def walletUserData (walletAddress randomHex freshId : String) : UserRec :=
  { id := freshId
  , email := walletAddress ++ "@web3.user"
  , password := randomHex
  , role := .WEB3_USER
  , walletAddress := some walletAddress
  , isActive := true
  , isWalletVerified := true }

/-- The creation attributes built by authenticateWeb3
(src/middleware/authMiddleware.ts lines 67-73): truncated address in the
email, random hex password, role WEB3_USER, isActive true; isWalletVerified
is NOT passed, so the model default false applies
(src/models/User.ts lines 75-79). -/
def web3UserData (address randomHex freshId : String) : UserRec :=
  { id := freshId
  , email := jsSliceTake address 6 ++ "..." ++ jsSliceLast address 4 ++ "@web3.user"
  , password := randomHex
  , role := .WEB3_USER
  , walletAddress := some address
  , isActive := true
  , isWalletVerified := false }

/-- Request body of the wallet login (auth.ts destructures walletAddress,
signature, message; authMiddleware destructures signature, message, address). -/
structure WalletBody where
  walletAddress : Option String
  signature : Option String
  message : Option String

/-- JS truthiness of a destructured body field. -/
def present : Option String → Bool
  | none => false
  | some s => !(s == "")

/-- authenticateWallet (src/middleware/auth.ts lines 71-125). `recover` stands
for ethers.verifyMessage (message, signature ↦ recovered address). To expose
the find/create race, `dFind` is the directory snapshot User.findOne reads and
`dCreate` the snapshot User.create inserts into (equal when no concurrent
login interleaves). A unique-violation from create is caught by the generic
`error instanceof Error` arm and becomes a 500. Returns the outcome (the
found or created user) and the directory after the call. -/
def authenticateWallet (recover : String → String → String)
    (dFind dCreate : List UserRec) (body : WalletBody)
    (randomHex freshId : String) : Outcome UserRec × List UserRec :=
  if !(present body.walletAddress) || !(present body.signature) || !(present body.message) then
    (.err ⟨400, "Missing wallet authentication data"⟩, dCreate)
  else
    match body.walletAddress, body.signature, body.message with
    | some wa, some sig, some msg =>
      if !(jsToLower (recover msg sig) == jsToLower wa) then
        (.err ⟨401, "Invalid signature"⟩, dCreate)
      else
        match findByWallet dFind wa with
        | some user => (.ok user, dCreate)
        | none =>
          match userCreate dCreate (walletUserData wa randomHex freshId) with
          | .error e => (.err ⟨500, createErrMsg e⟩, dCreate)
          | .ok users2 => (.ok (walletUserData wa randomHex freshId), users2)
    | _, _, _ => (.err ⟨400, "Missing wallet authentication data"⟩, dCreate)

/-- authenticateWeb3 (src/middleware/authMiddleware.ts lines 48-103): same
signature check, find-or-create with the web3UserData attributes (create has
no conflict handling either: a unique violation reaches the generic catch and
answers 500), then an isActive check answering 403. -/
def authenticateWeb3 (recover : String → String → String)
    (dFind dCreate : List UserRec) (body : WalletBody)
    (randomHex freshId : String) : Outcome UserRec × List UserRec :=
  if !(present body.signature) || !(present body.message) || !(present body.walletAddress) then
    (.err ⟨400, "Missing required fields"⟩, dCreate)
  else
    match body.walletAddress, body.signature, body.message with
    | some address, some sig, some msg =>
      if !(jsToLower (recover msg sig) == jsToLower address) then
        (.err ⟨401, "Invalid signature"⟩, dCreate)
      else
        match findByWallet dFind address with
        | some user =>
          if !user.isActive then (.err ⟨403, "Account is deactivated"⟩, dCreate)
          else (.ok user, dCreate)
        | none =>
          match userCreate dCreate (web3UserData address randomHex freshId) with
          | .error e => (.err ⟨500, createErrMsg e⟩, dCreate)
          | .ok users2 =>
            let user := web3UserData address randomHex freshId
            if !user.isActive then (.err ⟨403, "Account is deactivated"⟩, users2)
            else (.ok user, users2)
    | _, _, _ => (.err ⟨400, "Missing required fields"⟩, dCreate)

inductive RefreshErr
  | malformed
  | expired
  | revoked
deriving DecidableEq, Repr

/-- The 401 message the refreshToken handler forwards from a JWTError. -/
def refreshErrMsg : RefreshErr → String
  | .malformed => "Invalid refresh token"
  | .expired => "Refresh token expired"
  | .revoked => "Revoked"

/-- Modelled from the spec: `verifyRefreshToken` lives in src/utils/jwt.ts,
which is not among the provided sources. Per spec section 4.3, validate fails
with Malformed/SignatureInvalid (signature check first), then Expired, then
Revoked when the tokenId is in the RevocationStore; per section 5 the
validator only READS the store. -/
def verifyRefreshToken (secret : String) (revokedIds : List String) (now : Nat)
    (t : Token) : Except RefreshErr TokenPayload :=
  if t.signedWith ≠ secret then .error .malformed
  else if t.exp < now then .error .expired
  else if revokedIds.contains t.tokenId then .error .revoked
  else .ok t.payload

/-- A minted access/refresh pair. -/
structure TokenPair where
  accessToken : Token
  refreshToken : Token
deriving DecidableEq, Repr

/-- Modelled from the spec: `generateTokenPair` lives in src/utils/jwt.ts,
which is not among the provided sources. Per spec section 4.2, issue mints a
signed access/refresh pair carrying the payload, each with a fresh unique
tokenId and its class TTL; it performs no RevocationStore write. `freshA`
and `freshR` stand for the two freshly generated token identifiers. -/
def generateTokenPair (secret : String) (now accessTtl refreshTtl : Nat)
    (p : TokenPayload) (freshA freshR : String) : TokenPair :=
  { accessToken :=
      { raw := freshA, tokenId := freshA, payload := p, signedWith := secret
      , exp := now + accessTtl }
  , refreshToken :=
      { raw := freshR, tokenId := freshR, payload := p, signedWith := secret
      , exp := now + refreshTtl } }

/-- refreshToken (src/middleware/auth.ts lines 128-165): verify the presented
refresh token, look the subject up, check isActive, mint a new pair. The
handler performs NO RevocationStore write, so the store (`revokedIds`) is
returned unchanged. -/
def refreshToken (secret : String) (revokedIds : List String) (users : List UserRec)
    (now accessTtl refreshTtl : Nat) (rt : Option Token) (freshA freshR : String) :
    Outcome TokenPair × List String :=
  match rt with
  | none => (.err ⟨400, "Refresh token is required"⟩, revokedIds)
  | some t =>
    match verifyRefreshToken secret revokedIds now t with
    | .error e => (.err ⟨401, refreshErrMsg e⟩, revokedIds)
    | .ok payload =>
      match findByPk users payload.userId with
      | none => (.err ⟨401, "User not found"⟩, revokedIds)
      | some user =>
        if !user.isActive then (.err ⟨401, "User account is inactive"⟩, revokedIds)
        else
          (.ok (generateTokenPair secret now accessTtl refreshTtl
            { userId := user.id, role := user.role, walletAddress := user.walletAddress }
            freshA freshR), revokedIds)

/-- A live Sequelize User instance: the row values plus the dirty flag that
`this.changed('password')` reads (src/models/User.ts line 27). -/
structure UserInstance where
  row : UserRec
  passwordChanged : Bool
deriving DecidableEq, Repr

/-- Sequelize field assignment `user.password = v`: the dirty flag is raised
only when the assigned value differs from the current one (Sequelize's set
compares against the previous dataValue). -/
def setPassword (u : UserInstance) (v : String) : UserInstance :=
  if v == u.row.password then u
  else { row := { u.row with password := v }, passwordChanged := true }

/-- hashPassword (src/models/User.ts lines 26-31): re-hash only when the
password field is dirty. `bcrypt` stands for the salted bcrypt.hash. -/
def hashPassword (bcrypt : String → String) (u : UserInstance) : UserInstance :=
  if u.passwordChanged then { u with row := { u.row with password := bcrypt u.row.password } }
  else u

/-- The beforeSave hook (src/models/User.ts lines 86-90) runs hashPassword. -/
def beforeSave (bcrypt : String → String) (u : UserInstance) : UserInstance :=
  hashPassword bcrypt u

/-- user.save(): run the beforeSave hook, persist, clear dirty flags. -/
def save (bcrypt : String → String) (u : UserInstance) : UserInstance :=
  let v := beforeSave bcrypt u
  { v with passwordChanged := false }

/-! Concrete sample data used by counterexamples and witnesses. -/

/-- A sample active user with a wallet. -/
def u0 : UserRec :=
  { id := "u1", email := "a@web3.user", password := "pw", role := .USER
  , walletAddress := some "0xabc", isActive := true, isWalletVerified := true }

/-- A sample refresh token for u0, signed with "s", expiring at 100. -/
def rt0 : Token :=
  { raw := "rt0", tokenId := "rt0"
  , payload := { userId := "u1", role := .USER, walletAddress := some "0xabc" }
  , signedWith := "s", exp := 100 }

/-- C1. The refreshToken handler never writes the revocation store: the store
it returns is the one it was given, and a successful rotation can be replayed
— a second call with the same refresh token against the returned store yields
a fresh pair for the same payload instead of failing. -/
theorem refreshToken_not_single_use (secret : String) (rev : List String)
    (users : List UserRec) (now a r : Nat) (t : Token) (payload : TokenPayload)
    (user : UserRec) (fA fR fA2 fR2 : String)
    (hv : verifyRefreshToken secret rev now t = .ok payload)
    (hf : findByPk users payload.userId = some user)
    (ha : user.isActive = true) :
    (∀ rt gA gR, (refreshToken secret rev users now a r rt gA gR).2 = rev) ∧
    refreshToken secret rev users now a r (some t) fA fR =
      (.ok (generateTokenPair secret now a r
        { userId := user.id, role := user.role, walletAddress := user.walletAddress } fA fR),
        rev) ∧
    refreshToken secret rev users now a r (some t) fA2 fR2 =
      (.ok (generateTokenPair secret now a r
        { userId := user.id, role := user.role, walletAddress := user.walletAddress } fA2 fR2),
        rev) := by
  refine ⟨?_, ?_, ?_⟩
  · intro rt gA gR
    unfold refreshToken
    repeat' split
    all_goals rfl
  all_goals
    unfold refreshToken
    split
    next heq0 => exact Option.noConfusion heq0
    next t2 heq0 =>
      injection heq0 with ht2
      subst ht2
      split
      next e heq => rw [hv] at heq; exact Except.noConfusion heq
      next payload2 heq =>
        rw [hv] at heq
        injection heq with hpq
        subst hpq
        split
        next heq2 => rw [hf] at heq2; exact Option.noConfusion heq2
        next user2 heq2 =>
          rw [hf] at heq2
          injection heq2 with huq
          subst huq
          split
          next hact => rw [ha] at hact; simp at hact
          next hact => rfl

/-- Witness for C1's theorem at concrete inputs: rotating rt0 succeeds, and
rotating rt0 again against the store returned by the first rotation succeeds
again with a fresh pair. -/
theorem refreshToken_not_single_use_witness :
    refreshToken "s" [] [u0] 0 60 600 (some rt0) "a2" "r2" =
      (.ok (generateTokenPair "s" 0 60 600
        { userId := "u1", role := .USER, walletAddress := some "0xabc" } "a2" "r2"), []) :=
  (refreshToken_not_single_use "s" [] [u0] 0 60 600 rt0
    { userId := "u1", role := .USER, walletAddress := some "0xabc" } u0
    "a1" "r1" "a2" "r2" rfl rfl rfl).2.2

/-- C1 counterexample to the claim as stated: after a successful rotation of
rt0 the returned store is unchanged (rt0's tokenId is NOT marked), and a
second rotation presenting rt0 does not fail with Revoked (401) — it returns
a new pair. -/
theorem refreshToken_rotation_reuse_succeeds :
    (refreshToken "s" [] [u0] 0 60 600 (some rt0) "a1" "r1").2 = [] ∧
    (∃ p, (refreshToken "s" [] [u0] 0 60 600 (some rt0) "a1" "r1").1 = .ok p) ∧
    (refreshToken "s" (refreshToken "s" [] [u0] 0 60 600 (some rt0) "a1" "r1").2
        [u0] 0 60 600 (some rt0) "a2" "r2").1 ≠
      .err ⟨401, "Revoked"⟩ ∧
    (∃ q, (refreshToken "s" (refreshToken "s" [] [u0] 0 60 600 (some rt0) "a1" "r1").2
        [u0] 0 60 600 (some rt0) "a2" "r2").1 = .ok q) := by
  exact ⟨rfl, ⟨_, rfl⟩, by decide, ⟨_, rfl⟩⟩

/-- A token signed with the built-in fallback secret. -/
def tokDefault : Token :=
  { raw := "td", tokenId := "td"
  , payload := { userId := "u1", role := .USER, walletAddress := some "0xabc" }
  , signedWith := "your-secret-key", exp := 100 }

/-- An environment whose JWT_SECRET variable is absent. -/
def envNoSecret : Env :=
  { envSecret := none, blacklist := [], users := [u0], now := 0 }

/-- C2 counterexample to the claim as stated: with the signing secret absent
from configuration, auth.ts resolves JWT_SECRET to the built-in literal
string, and authenticateToken VERIFIES a token signed with that default —
the validation succeeds instead of failing with a ConfigurationError-class
failure. -/
theorem default_secret_used :
    JWT_SECRET none = "your-secret-key" ∧
    authenticateToken envNoSecret (some tokDefault) =
      .ok { userId := "u1", role := .USER, walletAddress := some "0xabc" } :=
  ⟨rfl, rfl⟩

/-- C2 amended: when the secret is absent, auth.ts behaves exactly as if the
secret were the built-in "your-secret-key" (silent weak default, no
ConfigurationError), while authMiddleware's authenticate never validates any
token (jwt.verify rejects the undefined key, answering 401 Invalid token). -/
theorem secret_absent_behavior (env : Env) (t : Option Token)
    (h : env.envSecret = none) :
    authenticateTokenT env t =
      authenticateTokenT { env with envSecret := some "your-secret-key" } t ∧
    ∀ p, authenticate env t ≠ .ok p := by
  obtain ⟨es, bl, us, n⟩ := env
  simp only at h
  subst h
  constructor
  · rfl
  · intro p
    cases t with
    | none => simp [authenticate]
    | some tk => simp [authenticate]

/-- Witness for C2's amended theorem at a concrete input: with the secret
absent, authMiddleware's authenticate rejects tokDefault. -/
theorem secret_absent_behavior_witness :
    authenticate envNoSecret (some tokDefault) ≠
      .ok { userId := "u1", role := .USER, walletAddress := some "0xabc" } :=
  (secret_absent_behavior envNoSecret (some tokDefault) rfl).2 _

/-- A token whose signature does not verify under the secret "s". -/
def tokBadSig : Token :=
  { raw := "tb", tokenId := "tb"
  , payload := { userId := "u1", role := .USER, walletAddress := none }
  , signedWith := "other", exp := 100 }

/-- An environment with secret "s" whose blacklist contains tokBadSig's raw
text. -/
def envBlk : Env :=
  { envSecret := some "s", blacklist := ["tb"], users := [u0], now := 0 }

/-- C3 counterexample to the claim as stated: tokBadSig's signature does not
verify, yet authenticateToken queries the revocation store for it — the
blacklist lookup is its FIRST check, and the request is answered from the
revocation store before any signature verification. -/
theorem revocation_queried_before_signature :
    jwtVerify tokBadSig (JWT_SECRET envBlk.envSecret) envBlk.now = .error .invalidSignature ∧
    (authenticateTokenT envBlk (some tokBadSig)).2 = [.revocationLookup] ∧
    (authenticateTokenT envBlk (some tokBadSig)).1 = .err ⟨401, "Token has been revoked"⟩ :=
  ⟨rfl, rfl, rfl⟩

/-- C3 amended: for every presented token, authenticateToken's checks run in
the order revocation-store lookup, then structural/signature verification,
then the directory lookup — the trace of checks is always a prefix of that
sequence starting with the revocation lookup. -/
theorem authenticateToken_check_order (env : Env) (t : Token) :
    ((authenticateTokenT env (some t)).2.head? = some .revocationLookup) ∧
    ((authenticateTokenT env (some t)).2 = [.revocationLookup] ∨
     (authenticateTokenT env (some t)).2 = [.revocationLookup, .signatureCheck] ∨
     (authenticateTokenT env (some t)).2 =
       [.revocationLookup, .signatureCheck, .userLookup]) := by
  unfold authenticateTokenT
  repeat' split
  all_goals simp_all

/-- An inactive user and a valid token for it. -/
def uInactive : UserRec :=
  { id := "u2", email := "b@web3.user", password := "pw", role := .USER
  , walletAddress := none, isActive := false, isWalletVerified := false }

/-- A token for uInactive, signed with "s". -/
def tokInactive : Token :=
  { raw := "ti", tokenId := "ti"
  , payload := { userId := "u2", role := .USER, walletAddress := none }
  , signedWith := "s", exp := 100 }

/-- Environment holding only the inactive account. -/
def envInactive : Env :=
  { envSecret := some "s", blacklist := [], users := [uInactive], now := 0 }

/-- C4 counterexample to the claim as stated: validating a not-expired,
not-revoked token of a deactivated account through authMiddleware's
authenticate fails with status 403, not with a 401 AuthenticationError. -/
theorem inactive_account_403 :
    authenticate envInactive (some tokInactive) = .err ⟨403, "Account is deactivated"⟩ ∧
    (403 : Nat) ≠ 401 :=
  ⟨rfl, by decide⟩

/-- C4 amended: a deactivated account fails on the very next validated
request in both validators — authenticateToken (auth.ts) answers
401 "User account is inactive", while authenticate (authMiddleware.ts)
answers 403 "Account is deactivated". -/
theorem inactive_account_rejected (env : Env) (t : Token) (user : UserRec) (secret : String)
    (hbl : env.blacklist.contains t.raw = false)
    (hes : env.envSecret = some secret)
    (hne : secret ≠ "")
    (hsig : t.signedWith = secret)
    (hexp : ¬ (t.exp < env.now))
    (hfind : findByPk env.users t.payload.userId = some user)
    (hact : user.isActive = false) :
    authenticateToken env (some t) = .err ⟨401, "User account is inactive"⟩ ∧
    authenticate env (some t) = .err ⟨403, "Account is deactivated"⟩ := by
  have hsecret : JWT_SECRET env.envSecret = secret := by
    rw [hes]; unfold JWT_SECRET; simp [hne]
  have hv : jwtVerify t secret env.now = .ok t.payload := by
    unfold jwtVerify
    rw [hsig]
    simp [hexp]
  constructor
  · unfold authenticateToken authenticateTokenT
    simp only [hsecret, hbl, hv, hfind, hact]
    simp
  · unfold authenticate
    simp only [hes, hv, hfind, hact]
    simp

/-- Witness for C4's amended theorem at the concrete inactive account. -/
theorem inactive_account_rejected_witness :
    authenticateToken envInactive (some tokInactive) =
      .err ⟨401, "User account is inactive"⟩ ∧
    authenticate envInactive (some tokInactive) =
      .err ⟨403, "Account is deactivated"⟩ :=
  inactive_account_rejected envInactive tokInactive uInactive "s"
    rfl rfl (by decide) rfl (by decide) rfl rfl

/-- A validated identity without a wallet address. -/
def identNoWallet : TokenPayload :=
  { userId := "u1", role := .USER, walletAddress := none }

/-- C7 counterexample to the claim as stated: the requireWallet gate (and the
wallet-presence step of requireWeb3Auth) rejects an identity without a wallet
with status 401, not with a 403 AuthorizationError. -/
theorem wallet_gate_401 :
    requireWalletStep identNoWallet = .err ⟨401, "Wallet authentication required"⟩ ∧
    requireWeb3AuthStep identNoWallet = .err ⟨401, "Web3 authentication required"⟩ ∧
    (401 : Nat) ≠ 403 :=
  ⟨rfl, rfl, by decide⟩

/-- C7 amended: for every validated identity whose walletAddress is absent
(or empty), requireWallet's second handler and requireWeb3Auth's second
handler both fail with status 401. -/
theorem wallet_gate_status (user : TokenPayload)
    (h : walletPresent user.walletAddress = false) :
    requireWalletStep user = .err ⟨401, "Wallet authentication required"⟩ ∧
    requireWeb3AuthStep user = .err ⟨401, "Web3 authentication required"⟩ := by
  unfold requireWalletStep requireWeb3AuthStep
  rw [h]
  exact ⟨rfl, rfl⟩

/-- Witness for C7's amended theorem at the concrete wallet-less identity. -/
theorem wallet_gate_status_witness :
    requireWalletStep identNoWallet = .err ⟨401, "Wallet authentication required"⟩ :=
  (wallet_gate_status identNoWallet rfl).1

/-- C8. For a wallet-login request with all three fields present, both
handlers fail with 401 Invalid signature exactly when the address recovered
from the signature differs from the claimed address under case-insensitive
comparison; when they match case-insensitively the signature check passes
(the handler proceeds past it, never producing the 401 Invalid signature
result). -/
theorem signature_mismatch_iff (recover : String → String → String)
    (dFind dCreate : List UserRec) (wa sig msg randomHex freshId : String)
    (hwa : wa ≠ "") (hs : sig ≠ "") (hm : msg ≠ "") :
    ((authenticateWallet recover dFind dCreate ⟨some wa, some sig, some msg⟩
        randomHex freshId).1 = .err ⟨401, "Invalid signature"⟩ ↔
      jsToLower (recover msg sig) ≠ jsToLower wa) ∧
    ((authenticateWeb3 recover dFind dCreate ⟨some wa, some sig, some msg⟩
        randomHex freshId).1 = .err ⟨401, "Invalid signature"⟩ ↔
      jsToLower (recover msg sig) ≠ jsToLower wa) := by
  by_cases hc : jsToLower (recover msg sig) = jsToLower wa
  · constructor
    · unfold authenticateWallet
      simp only [present, hwa, hs, hm, hc]
      simp only [ne_eq, hc, not_true_eq_false, iff_false]
      cases hf : findByWallet dFind wa with
      | some user => simp [hf, hwa, hs, hm]
      | none =>
        cases hcr : userCreate dCreate (walletUserData wa randomHex freshId) with
        | error e => simp [hf, hcr, hwa, hs, hm]
        | ok users2 => simp [hf, hcr, hwa, hs, hm]
    · unfold authenticateWeb3
      simp only [present, hwa, hs, hm, hc]
      simp only [ne_eq, hc, not_true_eq_false, iff_false]
      cases hf : findByWallet dFind wa with
      | some user => cases ha : user.isActive <;> simp [hf, ha, hwa, hs, hm]
      | none =>
        cases hcr : userCreate dCreate (web3UserData wa randomHex freshId) with
        | error e => simp [hf, hcr, hwa, hs, hm]
        | ok users2 => simp [hf, hcr, web3UserData, hwa, hs, hm]
  · constructor
    · unfold authenticateWallet
      simp [present, hwa, hs, hm, hc]
    · unfold authenticateWeb3
      simp [present, hwa, hs, hm, hc]

/-- Witness for C8's theorem at concrete inputs: when the recovered address
differs from the claimed one case-insensitively, authenticateWallet answers
401 Invalid signature. -/
theorem signature_mismatch_iff_witness :
    (authenticateWallet (fun _ _ => "0xDEF") [] [] ⟨some "0xabc", some "sg", some "m"⟩
        "pw" "id").1 = .err ⟨401, "Invalid signature"⟩ :=
  ((signature_mismatch_iff (fun _ _ => "0xDEF") [] [] "0xabc" "sg" "m" "pw" "id"
    (by decide) (by decide) (by decide)).1).2 (by decide)

/-- C9. Setting the password field to the value it already holds raises no
dirty flag (Sequelize set compares against the previous value), so the
beforeSave hook's changed-guard skips re-hashing: the stored hash after the
save equals the hash before it; a save without any password mutation is
likewise a no-op on the stored hash. -/
theorem password_resave_noop (bcrypt : String → String) (u : UserInstance)
    (h : u.passwordChanged = false) :
    setPassword u u.row.password = u ∧
    (save bcrypt (setPassword u u.row.password)).row.password = u.row.password ∧
    (save bcrypt u).row.password = u.row.password := by
  have h1 : setPassword u u.row.password = u := by
    unfold setPassword
    simp
  refine ⟨h1, ?_, ?_⟩
  · rw [h1]
    unfold save beforeSave hashPassword
    rw [h]
    simp
  · unfold save beforeSave hashPassword
    rw [h]
    simp

/-- Witness for C9's theorem at a concrete clean instance. -/
theorem password_resave_noop_witness :
    (save (fun s => s ++ "#h") (setPassword ⟨u0, false⟩ u0.password)).row.password =
      u0.password :=
  (password_resave_noop (fun s => s ++ "#h") ⟨u0, false⟩ rfl).2.1

/-- Number of persisted accounts carrying the given wallet address. -/
def countWallet (users : List UserRec) (wa : String) : Nat :=
  (users.filter (fun u => u.walletAddress == some wa)).length

theorem countWallet_append (l1 l2 : List UserRec) (wa : String) :
    countWallet (l1 ++ l2) wa = countWallet l1 wa + countWallet l2 wa := by
  unfold countWallet
  rw [List.filter_append, List.length_append]

theorem countWallet_eq_zero (l : List UserRec) (wa : String)
    (h : hasWallet l (some wa) = false) : countWallet l wa = 0 := by
  unfold hasWallet at h
  unfold countWallet
  rw [List.length_eq_zero, List.filter_eq_nil_iff]
  intro u hu
  intro hp
  rw [List.any_eq_false] at h
  exact h u hu hp

theorem countWallet_singleton_le (u : UserRec) (wa : String) :
    countWallet [u] wa ≤ 1 := by
  unfold countWallet
  cases h : u.walletAddress == some wa <;> simp [List.filter, h]

/-- A successful User.create never raises an address's account count above
one: the insert is guarded by the directory's unique constraint on
walletAddress, which rejects any conflicting row. -/
theorem countWallet_userCreate_le (dCreate : List UserRec) (u : UserRec)
    (users2 : List UserRec) (a : String) (h : countWallet dCreate a ≤ 1)
    (hcr : userCreate dCreate u = .ok users2) :
    countWallet users2 a ≤ 1 := by
  unfold userCreate at hcr
  split at hcr
  next hval => exact Except.noConfusion hcr
  next hval =>
    split at hcr
    next hcond => exact Except.noConfusion hcr
    next hcond =>
      injection hcr with hu2
      subst hu2
      simp only [Bool.or_eq_true, not_or, Bool.not_eq_true] at hcond
      rw [countWallet_append]
      cases hwa : u.walletAddress with
      | none =>
        have h1 : countWallet [u] a = 0 := by
          unfold countWallet
          simp [List.filter, hwa]
        omega
      | some wa =>
        by_cases haw : wa = a
        · subst haw
          have h0 : countWallet dCreate wa = 0 := by
            refine countWallet_eq_zero dCreate wa ?_
            rw [← hwa]
            exact hcond.2
          have h1 := countWallet_singleton_le u wa
          omega
        · have hb : (u.walletAddress == some a) = false := by
            rw [hwa]
            simp [haw]
          have h1 : countWallet [u] a = 0 := by
            unfold countWallet
            simp [List.filter, hb]
          omega

/-- No call through authenticateWallet raises the number of accounts holding
a given wallet address above one. -/
theorem authenticateWallet_countWallet_le (recover : String → String → String)
    (dFind dCreate : List UserRec) (body : WalletBody) (rh fid a : String)
    (h : countWallet dCreate a ≤ 1) :
    countWallet (authenticateWallet recover dFind dCreate body rh fid).2 a ≤ 1 := by
  unfold authenticateWallet
  repeat' split
  all_goals try exact h
  all_goals rename_i users2 heq
  all_goals exact countWallet_userCreate_le dCreate _ users2 a h heq

/-! Facts about the modelled isEmail / walletAddress validators, needed to
settle what User.create accepts on the two wallet-creation paths. -/

theorem splitChar_ne_nil (sep : Char) (cs : List Char) : splitChar sep cs ≠ [] := by
  induction cs with
  | nil => simp [splitChar]
  | cons c cs ih =>
    unfold splitChar
    by_cases h : (c == sep) = true
    · simp [h]
    · rw [if_neg (by simp [h])]
      cases hs : splitChar sep cs with
      | nil => simp
      | cons seg rest => simp

theorem splitChar_cons_sep (sep : Char) (ys : List Char) :
    splitChar sep (sep :: ys) = [] :: splitChar sep ys := by
  rw [show splitChar sep (sep :: ys) =
      (if sep == sep then [] :: splitChar sep ys
       else
         match splitChar sep ys with
         | [] => [[sep]]
         | seg :: rest => (sep :: seg) :: rest) from rfl]
  simp

theorem splitChar_append_no_sep (sep : Char) (xs ys : List Char)
    (h : ∀ c ∈ xs, (c == sep) = false) :
    splitChar sep (xs ++ ys) =
      match splitChar sep ys with
      | [] => [xs]
      | seg :: rest => (xs ++ seg) :: rest := by
  induction xs with
  | nil =>
    cases hs : splitChar sep ys with
    | nil => exact absurd hs (splitChar_ne_nil sep ys)
    | cons seg rest => simp [hs]
  | cons c cs ih =>
    have hc : (c == sep) = false := h c (by simp)
    have hcs : ∀ x ∈ cs, (x == sep) = false := fun x hx => h x (by simp [hx])
    simp only [List.cons_append]
    rw [show splitChar sep (c :: (cs ++ ys)) =
        (if c == sep then [] :: splitChar sep (cs ++ ys)
         else
           match splitChar sep (cs ++ ys) with
           | [] => [[c]]
           | seg :: rest => (c :: seg) :: rest) from rfl]
    rw [if_neg (by simp [hc]), ih hcs]
    cases hs : splitChar sep ys with
    | nil => exact absurd hs (splitChar_ne_nil sep ys)
    | cons seg rest => simp

theorem hasDoubleDot_append (A B : List Char) :
    hasDoubleDot (A ++ '.' :: '.' :: B) = true := by
  induction A with
  | nil => simp [hasDoubleDot]
  | cons c A ih =>
    cases A with
    | nil => simp [hasDoubleDot]
    | cons c2 A2 =>
      simp only [List.cons_append] at ih ⊢
      unfold hasDoubleDot
      rw [ih]
      simp

theorem hasDoubleDot_eq_false (cs : List Char)
    (h : ∀ c ∈ cs, (c == '.') = false) : hasDoubleDot cs = false := by
  induction cs with
  | nil => rfl
  | cons c cs ih =>
    cases cs with
    | nil => rfl
    | cons c2 cs2 =>
      have hc : (c == '.') = false := h c (by simp)
      have ht : ∀ x ∈ c2 :: cs2, (x == '.') = false := fun x hx => h x (by simp [hx])
      unfold hasDoubleDot
      rw [hc, ih ht]
      simp

theorem head_not_dot (cs : List Char) (h : ∀ c ∈ cs, (c == '.') = false) :
    (cs.head? == some '.') = false := by
  cases hl : cs.head? with
  | none => rfl
  | some c =>
    have hm : c ∈ cs := by
      cases cs with
      | nil => exact absurd hl (by simp)
      | cons x xs =>
        simp only [List.head?_cons, Option.some.injEq] at hl
        simp [hl]
    have hc := h c hm
    simp only [beq_eq_false_iff_ne] at hc
    simp [hc]

theorem getLast_not_dot (cs : List Char) (h : ∀ c ∈ cs, (c == '.') = false) :
    (cs.getLast? == some '.') = false := by
  cases hl : cs.getLast? with
  | none => rfl
  | some c =>
    have hm : c ∈ cs := by
      obtain ⟨hne, h2⟩ := List.mem_getLast?_eq_getLast (l := cs) (x := c) hl
      rw [h2]
      exact List.getLast_mem hne
    have hc := h c hm
    simp only [beq_eq_false_iff_ne] at hc
    simp [hc]

theorem dotSegments_of_no_dot (cs : List Char)
    (h : ∀ c ∈ cs, (c == '.') = false) : dotSegmentsNonempty cs = true := by
  unfold dotSegmentsNonempty
  rw [head_not_dot cs h, getLast_not_dot cs h, hasDoubleDot_eq_false cs h]
  rfl

theorem isHexDigitChar_ne_dot (c : Char) (h : isHexDigitChar c = true) :
    (c == '.') = false := by
  by_contra hb
  simp only [Bool.not_eq_false, beq_iff_eq] at hb
  subst hb
  exact absurd h (by decide)

theorem isHexDigitChar_ne_at (c : Char) (h : isHexDigitChar c = true) :
    (c == '@') = false := by
  by_contra hb
  simp only [Bool.not_eq_false, beq_iff_eq] at hb
  subst hb
  exact absurd h (by decide)

/-- A wallet-shaped address is 0x followed by 40 hex digits. -/
theorem walletShaped_data (a : String) (h : isWalletShaped (some a) = true) :
    ∃ rest, a.data = '0' :: 'x' :: rest ∧ rest.all isHexDigitChar = true := by
  have h2 : (match a.data with
      | '0' :: 'x' :: rest => rest.length == 40 && rest.all isHexDigitChar
      | _ => false) = true := h
  split at h2
  · rename_i rest heq
    rw [Bool.and_eq_true] at h2
    exact ⟨rest, heq, h2.2⟩
  · exact Bool.noConfusion h2

/-- No character of a wallet-shaped address is a dot or an at-sign. -/
theorem walletShaped_chars (a : String) (h : isWalletShaped (some a) = true) :
    ∀ c ∈ a.data, (c == '.') = false ∧ (c == '@') = false := by
  obtain ⟨rest, heq, hall⟩ := walletShaped_data a h
  intro c hc
  rw [heq] at hc
  simp only [List.mem_cons] at hc
  rcases hc with rfl | rfl | hc
  · exact ⟨by decide, by decide⟩
  · exact ⟨by decide, by decide⟩
  · have hhex : isHexDigitChar c = true := List.all_eq_true.mp hall c hc
    exact ⟨isHexDigitChar_ne_dot c hhex, isHexDigitChar_ne_at c hhex⟩

/-- The full-address email authenticateWallet builds passes the isEmail
validator for every wallet-shaped address. -/
theorem wallet_email_valid (a : String) (h : isWalletShaped (some a) = true) :
    isEmailShaped (a ++ "@web3.user") = true := by
  have hch := walletShaped_chars a h
  obtain ⟨rest, heq, -⟩ := walletShaped_data a h
  have hat : ∀ c ∈ a.data, (c == '@') = false := fun c hc => (hch c hc).2
  have hdot : ∀ c ∈ a.data, (c == '.') = false := fun c hc => (hch c hc).1
  unfold isEmailShaped
  have hdata : (a ++ "@web3.user").data = a.data ++ ('@' :: "web3.user".data) := by
    rw [String.data_append]
  rw [hdata, splitChar_append_no_sep '@' a.data _ hat, splitChar_cons_sep]
  have hwd : splitChar '@' "web3.user".data = ["web3.user".data] := by decide
  rw [hwd]
  show (!(a.data ++ []).isEmpty && !("web3.user".data.isEmpty) &&
    dotSegmentsNonempty (a.data ++ []) && dotSegmentsNonempty "web3.user".data) = true
  rw [List.append_nil, dotSegments_of_no_dot a.data hdot]
  rw [show a.data.isEmpty = false from by rw [heq]; rfl]
  decide

/-- The truncated email authenticateWeb3 builds FAILS the isEmail validator
for every wallet-shaped address: its local part contains the literal three
dots. -/
theorem web3_email_invalid (a : String) (h : isWalletShaped (some a) = true) :
    isEmailShaped (jsSliceTake a 6 ++ "..." ++ jsSliceLast a 4 ++ "@web3.user") = false := by
  have hch := walletShaped_chars a h
  have hAat : ∀ c ∈ a.data.take 6, (c == '@') = false :=
    fun c hc => (hch c (List.mem_of_mem_take hc)).2
  have hBat : ∀ c ∈ a.data.drop (a.data.length - 4), (c == '@') = false :=
    fun c hc => (hch c (List.mem_of_mem_drop hc)).2
  unfold isEmailShaped
  have hdata : (jsSliceTake a 6 ++ "..." ++ jsSliceLast a 4 ++ "@web3.user").data =
      a.data.take 6 ++ (['.', '.', '.'] ++
        (a.data.drop (a.data.length - 4) ++ ('@' :: "web3.user".data))) := by
    simp only [jsSliceTake, jsSliceLast, String.data_append, List.append_assoc]
  rw [hdata]
  rw [splitChar_append_no_sep '@' _ _ hAat,
    splitChar_append_no_sep '@' ['.', '.', '.'] _ (by decide),
    splitChar_append_no_sep '@' _ _ hBat,
    splitChar_cons_sep]
  have hwd : splitChar '@' "web3.user".data = ["web3.user".data] := by decide
  rw [hwd]
  show (!((a.data.take 6 ++ (['.', '.', '.'] ++ (a.data.drop (a.data.length - 4) ++ []))).isEmpty) &&
    !("web3.user".data.isEmpty) &&
    dotSegmentsNonempty (a.data.take 6 ++ (['.', '.', '.'] ++ (a.data.drop (a.data.length - 4) ++ []))) &&
    dotSegmentsNonempty "web3.user".data) = false
  have hdd : dotSegmentsNonempty
      (a.data.take 6 ++ (['.', '.', '.'] ++ (a.data.drop (a.data.length - 4) ++ []))) = false := by
    unfold dotSegmentsNonempty
    rw [show (['.', '.', '.'] ++ (a.data.drop (a.data.length - 4) ++ [])) =
        ('.' :: '.' :: ('.' :: (a.data.drop (a.data.length - 4) ++ []))) from rfl]
    rw [hasDoubleDot_append (a.data.take 6) ('.' :: (a.data.drop (a.data.length - 4) ++ []))]
    simp
  rw [hdd]
  simp

/-- A well-formed 42-character wallet address (0x followed by 40 hex digits). -/
def addrFull : String := "0x0123456789abcdef0123456789abcdef01234567"

/-- C5 counterexample to the claim as stated: with an empty directory at
findOne time and a concurrently created account with the same (well-formed)
address at create time, authenticateWallet surfaces a 500 error — the
uniqueness conflict is NOT recovered by re-fetching. -/
theorem wallet_create_conflict_500 :
    (authenticateWallet (fun _ _ => addrFull) [] [walletUserData addrFull "pw0" "id0"]
        ⟨some addrFull, some "sg", some "m"⟩ "pw1" "id1").1 =
      .err ⟨500, "unique violation"⟩ := by decide

/-- C5 amended: a create-conflict during wallet first-sign-in is surfaced as
a 500 error with the directory unchanged, not recovered by re-fetching; the
directory's uniqueness constraint still guarantees at most one persisted
account per address (no call raises an address's account count above one). -/
theorem authenticateWallet_conflict_behavior
    (recover : String → String → String) (dFind dCreate : List UserRec)
    (wa sig msg rh fid : String)
    (hshape : isWalletShaped (some wa) = true)
    (hwa : wa ≠ "") (hs : sig ≠ "") (hm : msg ≠ "")
    (hmatch : jsToLower (recover msg sig) = jsToLower wa)
    (hfind : findByWallet dFind wa = none)
    (hconf : hasWallet dCreate (some wa) = true) :
    authenticateWallet recover dFind dCreate ⟨some wa, some sig, some msg⟩ rh fid =
      (.err ⟨500, "unique violation"⟩, dCreate) ∧
    (∀ (body : WalletBody) (rh2 fid2 a : String), countWallet dCreate a ≤ 1 →
      countWallet (authenticateWallet recover dFind dCreate body rh2 fid2).2 a ≤ 1) := by
  constructor
  · have hcr : userCreate dCreate (walletUserData wa rh fid) = .error .uniqueViolation := by
      unfold userCreate
      rw [show (walletUserData wa rh fid).email = wa ++ "@web3.user" from rfl,
        show (walletUserData wa rh fid).walletAddress = some wa from rfl,
        wallet_email_valid wa hshape, hshape, hconf]
      simp
    unfold authenticateWallet
    simp [present, hwa, hs, hm, hmatch, hfind, hcr, createErrMsg]
  · intro body rh2 fid2 a ha
    exact authenticateWallet_countWallet_le recover dFind dCreate body rh2 fid2 a ha

/-- Witness for C5's amended theorem at the concrete race. -/
theorem authenticateWallet_conflict_behavior_witness :
    authenticateWallet (fun _ _ => addrFull) [] [walletUserData addrFull "pw0" "id0"]
        ⟨some addrFull, some "sg", some "m"⟩ "pw1" "id1" =
      (.err ⟨500, "unique violation"⟩, [walletUserData addrFull "pw0" "id0"]) :=
  (authenticateWallet_conflict_behavior (fun _ _ => addrFull) []
    [walletUserData addrFull "pw0" "id0"] addrFull "sg" "m" "pw1" "id1"
    (by decide) (by decide) (by decide) (by decide) rfl rfl (by decide)).1

/-- C6 counterexample to the claim as stated: addrFull is a well-formed
address with no existing account, yet the wallet login through
authenticateWeb3 does NOT succeed and creates nothing — the truncated
synthesized email fails the model's isEmail validation, so User.create
throws and the handler answers 500 with the directory unchanged; no account
with the claimed properties results. -/
theorem web3_first_signin_never_creates :
    isWalletShaped (some addrFull) = true ∧
    authenticateWeb3 (fun _ _ => addrFull) [] []
        ⟨some addrFull, some "sg", some "m"⟩ "pw" "id6" =
      (.err ⟨500, "Validation error"⟩, []) :=
  ⟨by decide, by decide⟩

/-- C6 amended: via auth.ts's authenticateWallet, a first wallet login for a
well-formed fresh address creates the account with role WEB3_USER, isActive
true, isWalletVerified true, the random password, and an email synthesized
injectively from the FULL address; via authMiddleware's authenticateWeb3, a
first sign-in can never create an account: its truncated synthesized email
(with the literal three dots in the local part) fails the isEmail
validation, so User.create throws and the handler answers 500, leaving the
directory unchanged. -/
theorem wallet_creation_semantics (recover : String → String → String)
    (dFind dCreate : List UserRec) (wa sig msg rh fid : String)
    (hshape : isWalletShaped (some wa) = true)
    (hwa : wa ≠ "") (hs : sig ≠ "") (hm : msg ≠ "")
    (hmatch : jsToLower (recover msg sig) = jsToLower wa)
    (hfresh : findByWallet dFind wa = none)
    (hnoE : hasEmail dCreate (wa ++ "@web3.user") = false)
    (hnoW : hasWallet dCreate (some wa) = false) :
    authenticateWallet recover dFind dCreate ⟨some wa, some sig, some msg⟩ rh fid =
      (.ok (walletUserData wa rh fid), dCreate ++ [walletUserData wa rh fid]) ∧
    (walletUserData wa rh fid).role = .WEB3_USER ∧
    (walletUserData wa rh fid).isActive = true ∧
    (walletUserData wa rh fid).isWalletVerified = true ∧
    (walletUserData wa rh fid).password = rh ∧
    (∀ wa2, (walletUserData wa rh fid).email = (walletUserData wa2 rh fid).email →
      wa = wa2) ∧
    authenticateWeb3 recover dFind dCreate ⟨some wa, some sig, some msg⟩ rh fid =
      (.err ⟨500, "Validation error"⟩, dCreate) := by
  have hcr : userCreate dCreate (walletUserData wa rh fid) =
      .ok (dCreate ++ [walletUserData wa rh fid]) := by
    unfold userCreate
    rw [show (walletUserData wa rh fid).email = wa ++ "@web3.user" from rfl,
      show (walletUserData wa rh fid).walletAddress = some wa from rfl,
      wallet_email_valid wa hshape, hshape, hnoE, hnoW]
    rfl
  have hcr2 : userCreate dCreate (web3UserData wa rh fid) = .error .validationFailed := by
    unfold userCreate
    rw [show (web3UserData wa rh fid).email =
        jsSliceTake wa 6 ++ "..." ++ jsSliceLast wa 4 ++ "@web3.user" from rfl,
      web3_email_invalid wa hshape]
    rfl
  refine ⟨?_, rfl, rfl, rfl, rfl, ?_, ?_⟩
  · unfold authenticateWallet
    simp [present, hwa, hs, hm, hmatch, hfresh, hcr]
  · intro wa2 hemail
    have hd := congrArg String.data hemail
    simp only [walletUserData, String.data_append] at hd
    exact String.ext (List.append_cancel_right hd)
  · unfold authenticateWeb3
    simp [present, hwa, hs, hm, hmatch, hfresh, hcr2, createErrMsg]

/-- Witness for C6's amended theorem at the concrete address: the auth.ts
first sign-in succeeds and persists the account. -/
theorem wallet_creation_semantics_witness :
    authenticateWallet (fun _ _ => addrFull) [] []
        ⟨some addrFull, some "sg", some "m"⟩ "pw" "id7" =
      (.ok (walletUserData addrFull "pw" "id7"), [walletUserData addrFull "pw" "id7"]) :=
  (wallet_creation_semantics (fun _ _ => addrFull) [] [] addrFull "sg" "m" "pw" "id7"
    (by decide) (by decide) (by decide) (by decide) rfl rfl rfl rfl).1

/-- Two directory records that agree on everything except possibly role and
walletAddress. -/
def sameExceptRoleWallet (u v : UserRec) : Prop :=
  u.id = v.id ∧ u.email = v.email ∧ u.password = v.password ∧
  u.isActive = v.isActive ∧ u.isWalletVerified = v.isWalletVerified

/-- findByPk answers consistently on two directories related pointwise by
sameExceptRoleWallet: both miss, or both hit related records. -/
theorem findByPk_sameExcept (d1 d2 : List UserRec)
    (h : List.Forall₂ sameExceptRoleWallet d1 d2) (i : String) :
    (findByPk d1 i = none ∧ findByPk d2 i = none) ∨
    (∃ u v, findByPk d1 i = some u ∧ findByPk d2 i = some v ∧
      sameExceptRoleWallet u v) := by
  induction h with
  | nil => exact Or.inl ⟨rfl, rfl⟩
  | cons huv htail ih =>
    rename_i u v l1 l2
    by_cases hid : (u.id == i) = true
    · right
      have hvid : (v.id == i) = true := by rw [← huv.1]; exact hid
      exact ⟨u, v, by simp [findByPk, List.find?_cons_of_pos, hid],
        by simp [findByPk, List.find?_cons_of_pos, hvid], huv⟩
    · have hvid : ¬ ((v.id == i) = true) := by rw [← huv.1]; exact hid
      have e1 : findByPk (u :: l1) i = findByPk l1 i := by
        unfold findByPk
        rw [List.find?_cons_of_neg]
        exact hid
      have e2 : findByPk (v :: l2) i = findByPk l2 i := by
        unfold findByPk
        rw [List.find?_cons_of_neg]
        exact hvid
      rw [e1, e2]
      exact ih

/-- authenticateToken's outcome does not depend on the stored role or wallet
address of directory records: on success it returns the DECODED TOKEN
PAYLOAD, and the only directory data it consults are existence and isActive. -/
theorem authenticateToken_sameExcept (es : Option String) (bl : List String) (n : Nat)
    (d1 d2 : List UserRec) (h : List.Forall₂ sameExceptRoleWallet d1 d2)
    (token : Option Token) :
    authenticateToken ⟨es, bl, d1, n⟩ token = authenticateToken ⟨es, bl, d2, n⟩ token := by
  unfold authenticateToken authenticateTokenT
  cases token with
  | none => rfl
  | some t =>
    by_cases hb : (bl.contains t.raw) = true
    · simp only [hb]
      rfl
    · simp only [Bool.not_eq_true] at hb
      simp only [hb]
      cases hv : jwtVerify t (JWT_SECRET es) n with
      | error e => simp [hv]
      | ok decoded =>
        simp only [hv]
        rcases findByPk_sameExcept d1 d2 h decoded.userId with ⟨h1, h2⟩ | ⟨u, v, h1, h2, huv⟩
        · simp [h1, h2]
        · simp only [h1, h2]
          rw [huv.2.2.2.1]

/-- C10. After authenticateToken, the requireRole, requireWeb3Auth and
requireWallet gates decide solely from the role and walletAddress embedded in
the token payload at issuance: for any two directory states that differ only
in accounts' current role or wallet address, each of these chains produces
the same outcome for the same token. -/
theorem gates_payload_only (es : Option String) (bl : List String) (n : Nat)
    (d1 d2 : List UserRec) (roles : List UserRole) (token : Option Token)
    (h : List.Forall₂ sameExceptRoleWallet d1 d2) :
    requireRoleChain roles ⟨es, bl, d1, n⟩ token =
      requireRoleChain roles ⟨es, bl, d2, n⟩ token ∧
    requireWeb3Auth ⟨es, bl, d1, n⟩ token = requireWeb3Auth ⟨es, bl, d2, n⟩ token ∧
    requireWallet ⟨es, bl, d1, n⟩ token = requireWallet ⟨es, bl, d2, n⟩ token := by
  have ha := authenticateToken_sameExcept es bl n d1 d2 h token
  unfold requireRoleChain requireWeb3Auth requireWallet
  rw [ha]
  exact ⟨rfl, rfl, rfl⟩

/-- u0 with its directory-side role and wallet address changed. -/
def u0admin : UserRec := { u0 with role := .ADMIN, walletAddress := none }

/-- Witness for C10's theorem: the requireRole chain answers identically on
the two directories that differ only in u0's role and wallet address. -/
theorem gates_payload_only_witness :
    requireRoleChain [UserRole.ADMIN] ⟨some "s", [], [u0], 0⟩ (some rt0) =
      requireRoleChain [UserRole.ADMIN] ⟨some "s", [], [u0admin], 0⟩ (some rt0) :=
  (gates_payload_only (some "s") [] 0 [u0] [u0admin] [UserRole.ADMIN] (some rt0)
    (List.Forall₂.cons ⟨rfl, rfl, rfl, rfl, rfl⟩ List.Forall₂.nil)).1

end AdvanceBackend
